import Mathlib

/-!
Verification of the desired-state convergence protocol of the
cluster-ingress-operator repository.

The development shallowly embeds the three source files
  pkg/operator/controller/ingress/trustedca_configmap.go
  pkg/operator/controller/gatewayclass/subscription.go
  pkg/operator/operator.go
as pure Lean functions over explicit store states.  The external object
store (the Kubernetes API server reached through the controller-runtime
client) is modelled as a record holding the (at most one) managed object
of each kind together with fault-injection fields that let a single
invocation observe any store error the client could return.  Every
client call an operation performs is recorded in an operation list so
that theorems can speak about which reads and writes were issued.
-/

namespace CIOperator

/-- Store-level errors of the Kubernetes API, as classified by
`k8s.io/apimachinery/pkg/api/errors` (IsNotFound, IsAlreadyExists,
IsConflict); all other transport errors carry a message. -/
inductive StoreError
  | notFound
  | alreadyExists
  | conflict
  | transient (msg : String)
deriving DecidableEq

/-- Errors as Go error values: either a raw store error or a store error
wrapped by `fmt.Errorf` with a contextual message. -/
inductive GoError
  | store (e : StoreError)
  | wrapped (msg : String) (cause : GoError)
deriving DecidableEq

/-- Root cause of a possibly wrapped error. -/
def GoError.root : GoError → StoreError
  | .store e => e
  | .wrapped _ cause => cause.root

/-- `errors.IsNotFound`. -/
def StoreError.isNotFound : StoreError → Bool
  | .notFound => true
  | _ => false

/-! ### Trusted-CA configmap (pkg/operator/controller/ingress/trustedca_configmap.go) -/

/-- A `corev1.ConfigMap`, restricted to the fields the embedded code reads
or writes.  `labels` is an `Option` because a Go map can be nil.
`resourceVersion` stands for the store's concurrency token. -/
structure ConfigMap where
  name : String
  ns : String
  annot : List (String × String)
  labels : Option (List (String × String))
  data : List (String × String)
  resourceVersion : Nat
deriving DecidableEq

/-- The label key set by `updateTrustedCAConfigMap`. -/
def injectKey : String := "config.openshift.io/inject-trusted-cabundle"

/-- Go map assignment `m[k] = v` on an association list: lookup of `k`
afterwards yields `v`, every other key is unchanged. -/
def mapSet (m : List (String × String)) (k v : String) : List (String × String) :=
  (k, v) :: m.filter (fun p => p.1 ≠ k)

/-- The condition guarding the early return of `updateTrustedCAConfigMap`:
`current.Labels != nil && current.Labels["config.openshift.io/inject-trusted-cabundle"] == "true"`
(a lookup in a Go map returns the empty string for a missing key). -/
def hasInjectLabel (cm : ConfigMap) : Bool :=
  match cm.labels with
  | none => false
  | some l => ((l.lookup injectKey).getD "" == "true")

/-- Modelled from the spec: the ResourceIdentity constant
`controller.TrustedCAConfigMapName()` is defined in
pkg/operator/controller, which is not part of the provided sources; no
claim depends on the concrete namespace/name pair. -/
def trustedCAConfigMapName : String × String := ("openshift-ingress", "service-ca-bundle")

/-- The configmap literal built by `desiredTrustedCAConfigMap`. -/
def trustedCACM : ConfigMap :=
  { name := trustedCAConfigMapName.2
    ns := trustedCAConfigMapName.1
    annot := [("description", "ConfigMap providing service CA bundle.")]
    labels := some [(injectKey, "true")]
    data := []
    resourceVersion := 0 }

/-- `desiredTrustedCAConfigMap` from trustedca_configmap.go: returns
(want, desired configmap, error); it unconditionally wants the configmap
and never fails. -/
def desiredTrustedCAConfigMap : Bool × ConfigMap × Option GoError :=
  (true, trustedCACM, none)

/-- State of the store as seen by the trusted-CA configmap reconciler:
the configmap (if present) and fault injections for each client verb. -/
structure CMStore where
  obj : Option ConfigMap
  getErr : Option StoreError
  createErr : Option StoreError
  updateErr : Option StoreError
  deleteErr : Option StoreError
deriving DecidableEq

/-- Client calls issued against the configmap store. -/
inductive CMOp
  | get
  | create (cm : ConfigMap)
  | update (cm : ConfigMap)
  | delete
deriving DecidableEq

/-- Result shape of `ensureTrustedCAConfigMap` and
`currentTrustedCAConfigMap`: the Go triple (bool, configmap, error)
together with the post-state of the store and the client calls made. -/
structure CMResult where
  haveCM : Bool
  cm : Option ConfigMap
  err : Option GoError
  store : CMStore
  ops : List CMOp
deriving DecidableEq

/-- `currentTrustedCAConfigMap`: Get the configmap; a NotFound from the
client means (false, nil, nil); any other error is returned unmodified. -/
def currentTrustedCAConfigMap (s : CMStore) : CMResult :=
  match s.getErr with
  | some e =>
    if e.isNotFound then
      { haveCM := false, cm := none, err := none, store := s, ops := [.get] }
    else
      { haveCM := false, cm := none, err := some (.store e), store := s, ops := [.get] }
  | none =>
    match s.obj with
    | none => { haveCM := false, cm := none, err := none, store := s, ops := [.get] }
    | some cm => { haveCM := true, cm := some cm, err := none, store := s, ops := [.get] }

/-- Result shape of `updateTrustedCAConfigMap`: (updated, error), the
post-state and the client calls made. -/
structure CMUpdateResult where
  updated : Bool
  err : Option GoError
  store : CMStore
  ops : List CMOp
deriving DecidableEq

/-- `updateTrustedCAConfigMap`: if the inject label is already "true",
no update is needed; otherwise deep-copy `current`, make a label map if
nil, set the inject label, and issue Update.  An AlreadyExists from
Update is swallowed; any other error is returned raw (the caller wraps
it). -/
def updateTrustedCAConfigMap (s : CMStore) (current _desired : ConfigMap) : CMUpdateResult :=
  if hasInjectLabel current then
    { updated := false, err := none, store := s, ops := [] }
  else
    let u : ConfigMap :=
      { current with labels := some (mapSet (current.labels.getD []) injectKey "true") }
    match s.updateErr with
    | some e =>
      if e = .alreadyExists then
        { updated := false, err := none, store := s, ops := [.update u] }
      else
        { updated := false, err := some (.store e), store := s, ops := [.update u] }
    | none =>
      match s.obj with
      | none =>
        { updated := false, err := some (.store .notFound), store := s, ops := [.update u] }
      | some _ =>
        { updated := true, err := none, store := { s with obj := some u }, ops := [.update u] }

/-- The four-way switch of `ensureTrustedCAConfigMap` over
(wantCM, haveCM), operating on the already fetched `current` object. -/
def ensureTrustedCAConfigMapSwitch (s : CMStore) (wantCM haveCM : Bool)
    (desired : ConfigMap) (current : Option ConfigMap) : CMResult :=
  match wantCM, haveCM with
  | false, false =>
    { haveCM := false, cm := none, err := none, store := s, ops := [] }
  | false, true =>
    match s.deleteErr with
    | some e =>
      if e.isNotFound then
        { haveCM := false, cm := none, err := none, store := s, ops := [.delete] }
      else
        { haveCM := true, cm := current
          err := some (.wrapped "failed to delete configmap" (.store e))
          store := s, ops := [.delete] }
    | none =>
      match s.obj with
      | none =>
        -- the store reports NotFound for a delete of an absent object,
        -- which the code treats as already satisfied
        { haveCM := false, cm := none, err := none, store := s, ops := [.delete] }
      | some _ =>
        { haveCM := false, cm := none, err := none, store := { s with obj := none }, ops := [.delete] }
  | true, false =>
    match s.createErr with
    | some e =>
      { haveCM := false, cm := none
        err := some (.wrapped "failed to create configmap" (.store e))
        store := s, ops := [.create desired] }
    | none =>
      match s.obj with
      | some _ =>
        { haveCM := false, cm := none
          err := some (.wrapped "failed to create configmap" (.store .alreadyExists))
          store := s, ops := [.create desired] }
      | none =>
        let s' : CMStore := { s with obj := some desired }
        let r := currentTrustedCAConfigMap s'
        { r with ops := .create desired :: r.ops }
  | true, true =>
    match current with
    | none =>
      -- never produced by currentTrustedCAConfigMap when haveCM is true
      { haveCM := true, cm := none, err := none, store := s, ops := [] }
    | some cur =>
      let u := updateTrustedCAConfigMap s cur desired
      match u.err with
      | some e =>
        { haveCM := true, cm := some cur
          err := some (.wrapped "failed to update configmap" e)
          store := u.store, ops := u.ops }
      | none =>
        if u.updated then
          let r := currentTrustedCAConfigMap u.store
          { r with ops := u.ops ++ r.ops }
        else
          { haveCM := true, cm := some cur, err := none, store := u.store, ops := u.ops }

/-- `ensureTrustedCAConfigMap`: build the desired configmap, fetch the
current one, and run the convergence switch. -/
def ensureTrustedCAConfigMap (s : CMStore) : CMResult :=
  match desiredTrustedCAConfigMap with
  | (_, _, some e) =>
    { haveCM := false, cm := none
      err := some (.wrapped "failed to build configmap" e), store := s, ops := [] }
  | (wantCM, desired, none) =>
    let c := currentTrustedCAConfigMap s
    match c.err with
    | some e => { haveCM := false, cm := none, err := some e, store := c.store, ops := c.ops }
    | none =>
      let r := ensureTrustedCAConfigMapSwitch c.store wantCM c.haveCM desired c.cm
      { r with ops := c.ops ++ r.ops }

/-! ### Service-mesh operator subscription (pkg/operator/controller/gatewayclass/subscription.go) -/

/-- An `operatorsv1alpha1.SubscriptionSpec` (a pointer field in Go, hence
wrapped in `Option` inside `Subscription`). -/
structure SubscriptionSpec where
  channel : String
  installPlanApproval : String
  package : String
  catalogSource : String
  catalogSourceNamespace : String
  startingCSV : String
deriving DecidableEq

/-- An `operatorsv1alpha1.Subscription` restricted to the fields the
embedded code reads or writes; `status` stands for the status
subresource, which the code never touches. -/
structure Subscription where
  name : String
  ns : String
  labels : List (String × String)
  annot : List (String × String)
  resourceVersion : Nat
  spec : Option SubscriptionSpec
  status : String
deriving DecidableEq

def serviceMeshOperatorDesiredVersion : String := "servicemeshoperator.v2.5.0"

def serviceMeshOperatorNamespace : String := "openshift-operators"

/-- Modelled from the spec: the ResourceIdentity constant
`operatorcontroller.ServiceMeshSubscriptionName()` is defined in
pkg/operator/controller, which is not part of the provided sources; no
claim depends on the concrete namespace/name pair. -/
def serviceMeshSubscriptionName : String × String :=
  (serviceMeshOperatorNamespace, "servicemeshoperator")

/-- The subscription literal built by `desiredSubscription`. -/
def smoSubscription : Subscription :=
  { name := serviceMeshSubscriptionName.2
    ns := serviceMeshSubscriptionName.1
    labels := []
    annot := []
    resourceVersion := 0
    spec := some
      { channel := "stable"
        installPlanApproval := "Manual"
        package := "servicemeshoperator"
        catalogSource := "redhat-operators"
        catalogSourceNamespace := "openshift-marketplace"
        startingCSV := serviceMeshOperatorDesiredVersion }
    status := "" }

/-- `desiredSubscription`: never fails. -/
def desiredSubscription : Subscription × Option GoError := (smoSubscription, none)

/-- `subscriptionChanged`: the comparator.  `cmp.Equal` on the two spec
pointers with `EquateEmpty` is structural equality of the `Option`al
specs here (all spec fields are plain strings).  When they differ the
update is a deep copy of `current` with only `Spec` overwritten. -/
def subscriptionChanged (current expected : Subscription) : Bool × Option Subscription :=
  if current.spec = expected.spec then (false, none)
  else (true, some { current with spec := expected.spec })

/-- Store state for the subscription reconciler. -/
structure SubStore where
  obj : Option Subscription
  getErr : Option StoreError
  createErr : Option StoreError
  updateErr : Option StoreError
deriving DecidableEq

/-- Client calls issued against the subscription store. -/
inductive SubOp
  | get
  | create (s : Subscription)
  | update (s : Subscription)
deriving DecidableEq

/-- Result shape of `ensureServiceMeshOperatorSubscription` and
`currentSubscription`. -/
structure SubResult where
  haveSub : Bool
  sub : Option Subscription
  err : Option GoError
  store : SubStore
  ops : List SubOp
deriving DecidableEq

/-- `currentSubscription`: NotFound means (false, nil, nil); any other
Get error is wrapped with "failed to get subscription". -/
def currentSubscription (s : SubStore) : SubResult :=
  match s.getErr with
  | some e =>
    if e.isNotFound then
      { haveSub := false, sub := none, err := none, store := s, ops := [.get] }
    else
      { haveSub := false, sub := none
        err := some (.wrapped "failed to get subscription" (.store e))
        store := s, ops := [.get] }
  | none =>
    match s.obj with
    | none => { haveSub := false, sub := none, err := none, store := s, ops := [.get] }
    | some sub => { haveSub := true, sub := some sub, err := none, store := s, ops := [.get] }

/-- Result shape of `createSubscription`. -/
structure SubWriteResult where
  err : Option GoError
  store : SubStore
  ops : List SubOp
deriving DecidableEq

/-- `createSubscription`: any Create error is wrapped with
"failed to create subscription". -/
def createSubscription (s : SubStore) (sub : Subscription) : SubWriteResult :=
  match s.createErr with
  | some e =>
    { err := some (.wrapped "failed to create subscription" (.store e))
      store := s, ops := [.create sub] }
  | none =>
    match s.obj with
    | some _ =>
      { err := some (.wrapped "failed to create subscription" (.store .alreadyExists))
        store := s, ops := [.create sub] }
    | none => { err := none, store := { s with obj := some sub }, ops := [.create sub] }

/-- Result shape of `updateSubscription`. -/
structure SubUpdateResult where
  updated : Bool
  err : Option GoError
  store : SubStore
  ops : List SubOp
deriving DecidableEq

/-- `updateSubscription`: delegate to `subscriptionChanged`; when
changed, issue Update of the merged object, wrapping any error with
"failed to update subscription". -/
def updateSubscription (s : SubStore) (current desired : Subscription) : SubUpdateResult :=
  match subscriptionChanged current desired with
  | (false, _) => { updated := false, err := none, store := s, ops := [] }
  | (true, none) =>
    -- subscriptionChanged never pairs true with none
    { updated := false, err := none, store := s, ops := [] }
  | (true, some u) =>
    match s.updateErr with
    | some e =>
      { updated := false
        err := some (.wrapped "failed to update subscription" (.store e))
        store := s, ops := [.update u] }
    | none =>
      match s.obj with
      | none =>
        { updated := false
          err := some (.wrapped "failed to update subscription" (.store .notFound))
          store := s, ops := [.update u] }
      | some _ =>
        { updated := true, err := none, store := { s with obj := some u }, ops := [.update u] }

/-- `ensureServiceMeshOperatorSubscription`: fetch current, build
desired, then create when absent (re-fetching after a successful
create) or update when present and changed (re-fetching after a
successful update). -/
def ensureServiceMeshOperatorSubscription (s : SubStore) : SubResult :=
  let c := currentSubscription s
  match c.err with
  | some e => { haveSub := false, sub := none, err := some e, store := c.store, ops := c.ops }
  | none =>
    match desiredSubscription with
    | (_, some e) =>
      { haveSub := c.haveSub, sub := c.sub, err := some e, store := c.store, ops := c.ops }
    | (desired, none) =>
      match c.haveSub with
      | false =>
        let w := createSubscription c.store desired
        match w.err with
        | some e =>
          { haveSub := false, sub := none, err := some e, store := w.store, ops := c.ops ++ w.ops }
        | none =>
          let r := currentSubscription w.store
          { r with ops := c.ops ++ w.ops ++ r.ops }
      | true =>
        match c.sub with
        | none =>
          -- never produced by currentSubscription when haveSub is true
          { haveSub := true, sub := none, err := none, store := c.store, ops := c.ops }
        | some cur =>
          let u := updateSubscription c.store cur desired
          match u.err with
          | some e =>
            { haveSub := true, sub := some cur, err := some e
              store := u.store, ops := c.ops ++ u.ops }
          | none =>
            if u.updated then
              let r := currentSubscription u.store
              { r with ops := c.ops ++ u.ops ++ r.ops }
            else
              { haveSub := true, sub := some cur, err := none
                store := u.store, ops := c.ops ++ u.ops }

/-! ### Cluster configuration types (configv1) used by pkg/operator/operator.go -/

/-- `configv1.SingleReplicaTopologyMode`. -/
def SingleReplicaTopologyMode : String := "SingleReplica"

/-- `configv1.NonePlatformType`. -/
def NonePlatformType : String := "None"

/-- `configv1.AWSPlatformType`. -/
def AWSPlatformType : String := "AWS"

/-- `configv1.NLB`. -/
def NLB : String := "NLB"

/-- `configv1.DefaultPlacementControlPlane`. -/
def DefaultPlacementControlPlane : String := "ControlPlane"

/-- `configv1.DefaultPlacementWorkers`. -/
def DefaultPlacementWorkers : String := "Workers"

/-- `configv1.PlatformStatus`, restricted to its `Type` field.  The Go
field `infraConfig.Status.PlatformStatus` is a pointer, hence `Option`
at its use site. -/
structure PlatformStatus where
  type : String
deriving DecidableEq

/-- `configv1.InfrastructureStatus`, restricted to the fields read by
operator.go. -/
structure InfrastructureStatus where
  controlPlaneTopology : String
  infrastructureTopology : String
  platformStatus : Option PlatformStatus
deriving DecidableEq

/-- `configv1.Infrastructure`. -/
structure Infrastructure where
  status : InfrastructureStatus
deriving DecidableEq

/-- The fields of `configv1.IngressSpec` read by operator.go:
`Spec.OperatorLogLevel` and `Spec.LoadBalancer.Platform`
(`lbAWSType` is `LoadBalancer.Platform.AWS.Type`, an `Option` because
the `AWS` pointer can be nil). -/
structure IngressSpec where
  operatorLogLevel : String
  lbPlatformType : String
  lbAWSType : Option String
deriving DecidableEq

/-- `configv1.IngressStatus`, restricted to `DefaultPlacement`. -/
structure IngressStatus where
  defaultPlacement : String
deriving DecidableEq

/-- `configv1.Ingress`. -/
structure IngressConfig where
  spec : IngressSpec
  status : IngressStatus
deriving DecidableEq

/-! ### Default IngressController (ensureDefaultIngressController in operator.go) -/

/-- An `operatorv1.IngressController` restricted to the fields
operator.go writes; `endpointPublishingStrategy` summarises the AWS NLB
strategy literal that is either set whole or left nil. -/
structure IngressController where
  name : String
  ns : String
  replicas : Int
  endpointPublishingStrategy : Option String
deriving DecidableEq

/-- Modelled from the spec: `ingress.DetermineReplicas` lives in the
ingress controller package, which is not part of the provided sources;
the spec places the concrete desired-state formulas out of scope, and no
claim depends on the returned value. -/
def DetermineReplicas (_ingressConfig : IngressConfig) (_infraConfig : Infrastructure) : Int := 2

/-- The endpoint publishing strategy literal built for AWS NLB clusters
(LoadBalancerService, scope External, provider AWS, type NLB). -/
def awsNLBStrategy : String := "LoadBalancerService/External/AWS/NLB"

/-- Store state for the default-IngressController logic. -/
structure ICStore where
  obj : Option IngressController
  getErr : Option StoreError
  createErr : Option StoreError
deriving DecidableEq

/-- Client calls issued against the IngressController store. -/
inductive ICOp
  | get
  | create (ic : IngressController)
deriving DecidableEq

/-- Result shape of `ensureDefaultIngressController` (error only in Go). -/
structure ICResult where
  err : Option GoError
  store : ICStore
  ops : List ICOp
deriving DecidableEq

/-- The client Get used by `ensureDefaultIngressController`. -/
def icGet (s : ICStore) : Except StoreError IngressController :=
  match s.getErr with
  | some e => .error e
  | none =>
    match s.obj with
    | none => .error .notFound
    | some ic => .ok ic

/-- `ensureDefaultIngressController`: return nil if the controller
exists; propagate non-NotFound Get errors unmodified; otherwise build
the desired controller (non-nil replicas; AWS NLB strategy when the
ingress config asks for it) and Create it, propagating any Create error
unmodified. -/
def ensureDefaultIngressController (infraConfig : Infrastructure)
    (ingressConfig : IngressConfig) (opNs : String) (s : ICStore) : ICResult :=
  match icGet s with
  | .ok _ => { err := none, store := s, ops := [.get] }
  | .error e =>
    if e.isNotFound then
      let replicas := DetermineReplicas ingressConfig infraConfig
      let base : IngressController :=
        { name := "default", ns := opNs, replicas := replicas
          endpointPublishingStrategy := none }
      let ic : IngressController :=
        if ingressConfig.spec.lbPlatformType = AWSPlatformType then
          match ingressConfig.spec.lbAWSType with
          | some t =>
            if t = NLB then { base with endpointPublishingStrategy := some awsNLBStrategy }
            else base
          | none => base
        else base
      match s.createErr with
      | some ce => { err := some (.store ce), store := s, ops := [.get, .create ic] }
      | none =>
        match s.obj with
        | some _ => { err := some (.store .alreadyExists), store := s, ops := [.get, .create ic] }
        | none => { err := none, store := { s with obj := some ic }, ops := [.get, .create ic] }
    else { err := some (.store e), store := s, ops := [.get] }

/-! ### Log level regulator (ensureLogLevel in operator.go) -/

/-- `zap.InfoLevel`. -/
def zapInfoLevel : Int := 0

/-- `zap.DebugLevel`. -/
def zapDebugLevel : Int := -1

/-- The process-wide log-level state `logf.CurrentLogLevel`, together
with a count of `SetLevel` calls so that theorems can observe whether a
write happened. -/
structure LogState where
  currentLevel : Int
  setLevelCalls : Nat
deriving DecidableEq

/-- The switch in `ensureLogLevel` mapping
`ingressConfig.Spec.OperatorLogLevel` to (zap level, verbosity): Debug
maps to Debug (-1), Trace to -2, TraceAll to -3, everything else
(including Normal and the empty string) to Info (0). -/
def desiredOperatorLogLevel (operatorLogLevel : String) : Int × Nat :=
  if operatorLogLevel = "Debug" then (zapDebugLevel, 1)
  else if operatorLogLevel = "Trace" then (-2, 2)
  else if operatorLogLevel = "TraceAll" then (-3, 3)
  else (zapInfoLevel, 0)

/-- `ensureLogLevel`: fetch the ingress config (returning unchanged state
on a Get error), compute the desired level, and call `SetLevel` only
when it differs from the current level. -/
def ensureLogLevel (fetched : Except StoreError IngressConfig) (st : LogState) : LogState :=
  match fetched with
  | .error _ => st
  | .ok ingressConfig =>
    let desired := (desiredOperatorLogLevel ingressConfig.spec.operatorLogLevel).1
    if st.currentLevel ≠ desired then
      { currentLevel := desired, setLevelCalls := st.setLevelCalls + 1 }
    else st

/-! ### Topology gate (handleSingleNode4Dot11Upgrade in operator.go) -/

/-- Store state seen by `handleSingleNode4Dot11Upgrade`: the two config
objects, the cluster node count, fault injections for the reads, and the
number of Conflict responses the status-patch endpoint will produce
before accepting a write. -/
structure ClusterStore where
  infra : Infrastructure
  ingressConfig : IngressConfig
  nodeCount : Nat
  getInfraErr : Option StoreError
  getIngressErr : Option StoreError
  listNodesErr : Option StoreError
  patchConflicts : Nat
deriving DecidableEq

/-- Client calls issued by the topology gate. -/
inductive ClusterOp
  | getInfra
  | getIngress
  | listNodes
  | patchStatus (v : String)
deriving DecidableEq

/-- Outcomes of `handleSingleNode4Dot11Upgrade`: nil, a Go error, or a
nil-pointer-dereference panic. -/
inductive HandleResult
  | ok
  | error (e : GoError)
  | panicked
deriving DecidableEq

/-- Result shape of `handleSingleNode4Dot11Upgrade`. -/
structure HandleOutcome where
  res : HandleResult
  store : ClusterStore
  ops : List ClusterOp
deriving DecidableEq

/-- `retry.DefaultBackoff.Steps` from k8s.io/client-go/util/retry: the
status patch is attempted at most four times. -/
def retrySteps : Nat := 4

/-- The closure passed to `retry.RetryOnConflict`: re-fetch the ingress
config and patch its status `DefaultPlacement` to `v`; the patch
consumes one pending Conflict if any remain. -/
def ingressStatusPatchBody (v : String) (s : ClusterStore) :
    Option StoreError × ClusterStore × List ClusterOp :=
  match s.getIngressErr with
  | some e => (some e, s, [.getIngress])
  | none =>
    if s.patchConflicts = 0 then
      (none,
        { s with ingressConfig := { s.ingressConfig with status := { defaultPlacement := v } } },
        [.getIngress, .patchStatus v])
    else
      (some .conflict, { s with patchConflicts := s.patchConflicts - 1 },
        [.getIngress, .patchStatus v])

/-- `retry.RetryOnConflict` from k8s.io/client-go: run the body; retry
while it returns a Conflict and attempts remain; return the body's error
(the last Conflict included) otherwise. -/
def retryOnConflict (body : ClusterStore → Option StoreError × ClusterStore × List ClusterOp) :
    Nat → ClusterStore → Option StoreError × ClusterStore × List ClusterOp
  | 0, s => (some .conflict, s, [])
  | n + 1, s =>
    match body s with
    | (none, s', ops) => (none, s', ops)
    | (some e, s', ops) =>
      if e = .conflict ∧ n ≠ 0 then
        match retryOnConflict body n s' with
        | (r, s'', ops') => (r, s'', ops ++ ops')
      else (some e, s', ops)

/-- The trailing patch step of `handleSingleNode4Dot11Upgrade`: run the
status patch under RetryOnConflict and wrap a final error with
"unable to update ingress config". -/
def patchDefaultPlacement (d : String) (s : ClusterStore) : HandleOutcome :=
  match retryOnConflict (ingressStatusPatchBody d) retrySteps s with
  | (some e, s', ops) =>
    { res := .error (.wrapped "unable to update ingress config" (.store e))
      store := s', ops := [.getInfra, .getIngress, .listNodes] ++ ops }
  | (none, s', ops) =>
    { res := .ok, store := s', ops := [.getInfra, .getIngress, .listNodes] ++ ops }

/-- `handleSingleNode4Dot11Upgrade`: fetch the infrastructure and
ingress configs; return nil at once if `Status.DefaultPlacement` is
already set; otherwise list the nodes and pick "ControlPlane" exactly
for a one-node cluster with both topologies SingleReplica on platform
None — dereferencing the `PlatformStatus` pointer only after the first
three conjuncts hold, which panics when it is nil — then patch the
chosen value under RetryOnConflict. -/
def handleSingleNode4Dot11Upgrade (s : ClusterStore) : HandleOutcome :=
  match s.getInfraErr with
  | some e =>
    { res := .error (.wrapped "failed fetching infrastructure config" (.store e))
      store := s, ops := [.getInfra] }
  | none =>
    match s.getIngressErr with
    | some e =>
      { res := .error (.wrapped "failed fetching ingress config" (.store e))
        store := s, ops := [.getInfra, .getIngress] }
    | none =>
      if s.ingressConfig.status.defaultPlacement ≠ "" then
        { res := .ok, store := s, ops := [.getInfra, .getIngress] }
      else
        match s.listNodesErr with
        | some e =>
          { res := .error (.wrapped "failed fetching cluster nodes" (.store e))
            store := s, ops := [.getInfra, .getIngress, .listNodes] }
        | none =>
          if s.nodeCount = 1 ∧
              s.infra.status.controlPlaneTopology = SingleReplicaTopologyMode ∧
              s.infra.status.infrastructureTopology = SingleReplicaTopologyMode then
            match s.infra.status.platformStatus with
            | none =>
              { res := .panicked, store := s, ops := [.getInfra, .getIngress, .listNodes] }
            | some ps =>
              if ps.type = NonePlatformType then
                patchDefaultPlacement DefaultPlacementControlPlane s
              else
                patchDefaultPlacement DefaultPlacementWorkers s
          else
            patchDefaultPlacement DefaultPlacementWorkers s

/-! ### Operation classifiers -/

/-- Whether a configmap client call writes to the store. -/
def CMOp.isWriteOp : CMOp → Bool
  | .get => false
  | _ => true

/-- Whether a configmap client call is a Create. -/
def CMOp.isCreateOp : CMOp → Bool
  | .create _ => true
  | _ => false

/-- Whether a configmap client call is an Update. -/
def CMOp.isUpdateOp : CMOp → Bool
  | .update _ => true
  | _ => false

/-- Whether a subscription client call writes to the store. -/
def SubOp.isWriteOp : SubOp → Bool
  | .get => false
  | _ => true

/-- Whether a subscription client call is a Create. -/
def SubOp.isCreateOp : SubOp → Bool
  | .create _ => true
  | _ => false

/-- Whether an IngressController client call writes to the store. -/
def ICOp.isWriteOp : ICOp → Bool
  | .get => false
  | .create _ => true

/-- Whether an IngressController client call is a Create. -/
def ICOp.isCreateOp : ICOp → Bool
  | .create _ => true
  | _ => false

/-- Whether a topology-gate client call writes to the store. -/
def ClusterOp.isWriteOp : ClusterOp → Bool
  | .patchStatus _ => true
  | _ => false

/-! ### Helper lemmas -/

theorem hasInjectLabel_mapSet (cm : ConfigMap) (m : List (String × String)) :
    hasInjectLabel { cm with labels := some (mapSet m injectKey "true") } = true := by
  simp [hasInjectLabel, mapSet, List.lookup]

theorem mapSet_filter_ne (m : List (String × String)) (k v : String) :
    (mapSet m k v).filter (fun p => p.1 ≠ k) = m.filter (fun p => p.1 ≠ k) := by
  simp [mapSet, List.filter_filter]

theorem retry_patch_success (d : String) : ∀ (fuel : Nat) (s : ClusterStore),
    s.getIngressErr = none → s.patchConflicts < fuel →
    ∃ ops, retryOnConflict (ingressStatusPatchBody d) fuel s =
      (none,
       { infra := s.infra
         ingressConfig := { spec := s.ingressConfig.spec, status := { defaultPlacement := d } }
         nodeCount := s.nodeCount
         getInfraErr := s.getInfraErr
         getIngressErr := s.getIngressErr
         listNodesErr := s.listNodesErr
         patchConflicts := 0 }, ops) := by
  intro fuel
  induction fuel with
  | zero => intro s _ hlt; exact absurd hlt (Nat.not_lt_zero _)
  | succ n ih =>
    intro s hg hlt
    obtain ⟨infra, ⟨ispec, istat⟩, nc, gi, gIe, lne, pc⟩ := s
    simp only at hg hlt ⊢
    subst hg
    match pc, hlt with
    | 0, _ =>
      exact ⟨[.getIngress, .patchStatus d],
        by simp [retryOnConflict, ingressStatusPatchBody]⟩
    | k + 1, hlt =>
      have hn : n ≠ 0 := by omega
      have hk : k < n := by omega
      obtain ⟨ops', hrec⟩ := ih
        { infra := infra
          ingressConfig := { spec := ispec, status := istat }
          nodeCount := nc
          getInfraErr := gi
          getIngressErr := none
          listNodesErr := lne
          patchConflicts := k } rfl hk
      refine ⟨[.getIngress, .patchStatus d] ++ ops', ?_⟩
      dsimp only at hrec
      simp [retryOnConflict, ingressStatusPatchBody, hn, hrec]

theorem patch_placement_ne_panicked (d : String) (s : ClusterStore) :
    (patchDefaultPlacement d s).res ≠ .panicked := by
  unfold patchDefaultPlacement
  rcases h : retryOnConflict (ingressStatusPatchBody d) retrySteps s with ⟨r, s', ops⟩
  rcases r with _ | e <;> simp

theorem patch_placement_ok (d : String) (s : ClusterStore)
    (hg : s.getIngressErr = none) (hc : s.patchConflicts < retrySteps) :
    (patchDefaultPlacement d s).res = .ok ∧
    (patchDefaultPlacement d s).store.ingressConfig.status.defaultPlacement = d := by
  obtain ⟨ops, heq⟩ := retry_patch_success d retrySteps s hg hc
  unfold patchDefaultPlacement
  rw [heq]
  exact ⟨rfl, rfl⟩

/-- C5: if the ingress config's Status.DefaultPlacement is already
non-empty when handleSingleNode4Dot11Upgrade runs (and the two config
fetches succeed), the function returns nil immediately, issues no write
(its only client calls are the two reads), and leaves the store
unchanged, regardless of node count or topology. -/
theorem C5_thm (s : ClusterStore)
    (h1 : s.getInfraErr = none) (h2 : s.getIngressErr = none)
    (h3 : s.ingressConfig.status.defaultPlacement ≠ "") :
    handleSingleNode4Dot11Upgrade s =
      { res := .ok, store := s, ops := [.getInfra, .getIngress] } := by
  obtain ⟨infra, ing, nc, gi, gIe, lne, pc⟩ := s
  dsimp only at h1 h2 h3
  subst h1; subst h2
  simp [handleSingleNode4Dot11Upgrade, h3]

/-- C5 witness: a concrete store with DefaultPlacement already set on
which the gate is a pure no-op. -/
theorem C5_witness :
    (({ infra := { status := { controlPlaneTopology := "HighlyAvailable",
                               infrastructureTopology := "HighlyAvailable",
                               platformStatus := some { type := "AWS" } } },
        ingressConfig := { spec := { operatorLogLevel := "Normal", lbPlatformType := "AWS",
                                     lbAWSType := none },
                           status := { defaultPlacement := DefaultPlacementWorkers } },
        nodeCount := 3, getInfraErr := none, getIngressErr := none,
        listNodesErr := none, patchConflicts := 0 } : ClusterStore).getInfraErr = none) ∧
    handleSingleNode4Dot11Upgrade
      { infra := { status := { controlPlaneTopology := "HighlyAvailable",
                               infrastructureTopology := "HighlyAvailable",
                               platformStatus := some { type := "AWS" } } },
        ingressConfig := { spec := { operatorLogLevel := "Normal", lbPlatformType := "AWS",
                                     lbAWSType := none },
                           status := { defaultPlacement := DefaultPlacementWorkers } },
        nodeCount := 3, getInfraErr := none, getIngressErr := none,
        listNodesErr := none, patchConflicts := 0 } =
      { res := .ok
        store :=
          { infra := { status := { controlPlaneTopology := "HighlyAvailable",
                                   infrastructureTopology := "HighlyAvailable",
                                   platformStatus := some { type := "AWS" } } },
            ingressConfig := { spec := { operatorLogLevel := "Normal", lbPlatformType := "AWS",
                                         lbAWSType := none },
                               status := { defaultPlacement := DefaultPlacementWorkers } },
            nodeCount := 3, getInfraErr := none, getIngressErr := none,
            listNodesErr := none, patchConflicts := 0 }
        ops := [.getInfra, .getIngress] } :=
  ⟨rfl, C5_thm _ rfl rfl (by simp [DefaultPlacementWorkers])⟩

/-- C4: when the gate reaches its placement decision (both config
fetches succeed, DefaultPlacement is unset, the node list succeeds, the
PlatformStatus pointer is non-nil, and the bounded conflict retry can
succeed), it selects ControlPlane exactly when the cluster has one node,
both topologies are SingleReplica, and the platform type is None, and
selects Workers for every other combination; the selected value is what
ends up in the patched status. -/
theorem C4_thm (s : ClusterStore) (ps : PlatformStatus)
    (h1 : s.getInfraErr = none) (h2 : s.getIngressErr = none)
    (h3 : s.ingressConfig.status.defaultPlacement = "")
    (h4 : s.listNodesErr = none)
    (h5 : s.infra.status.platformStatus = some ps)
    (h6 : s.patchConflicts < retrySteps) :
    (handleSingleNode4Dot11Upgrade s).res = .ok ∧
    (handleSingleNode4Dot11Upgrade s).store.ingressConfig.status.defaultPlacement =
      (if s.nodeCount = 1 ∧
          s.infra.status.controlPlaneTopology = SingleReplicaTopologyMode ∧
          s.infra.status.infrastructureTopology = SingleReplicaTopologyMode ∧
          ps.type = NonePlatformType
       then DefaultPlacementControlPlane else DefaultPlacementWorkers) := by
  obtain ⟨⟨⟨cpT, itT, pfS⟩⟩, ⟨ispec, ⟨dp⟩⟩, nc, gi, gIe, lne, pc⟩ := s
  dsimp only at h1 h2 h3 h4 h5 h6 ⊢
  subst h1; subst h2; subst h3; subst h4; subst h5
  by_cases hc : nc = 1 ∧ cpT = SingleReplicaTopologyMode ∧ itT = SingleReplicaTopologyMode
  · by_cases ht : ps.type = NonePlatformType
    · have hh : handleSingleNode4Dot11Upgrade
          ⟨⟨⟨cpT, itT, some ps⟩⟩, ⟨ispec, ⟨""⟩⟩, nc, none, none, none, pc⟩ =
          patchDefaultPlacement DefaultPlacementControlPlane
            ⟨⟨⟨cpT, itT, some ps⟩⟩, ⟨ispec, ⟨""⟩⟩, nc, none, none, none, pc⟩ := by
        simp [handleSingleNode4Dot11Upgrade, hc, ht]
      rw [hh, if_pos ⟨hc.1, hc.2.1, hc.2.2, ht⟩]
      exact patch_placement_ok _ _ rfl h6
    · have hh : handleSingleNode4Dot11Upgrade
          ⟨⟨⟨cpT, itT, some ps⟩⟩, ⟨ispec, ⟨""⟩⟩, nc, none, none, none, pc⟩ =
          patchDefaultPlacement DefaultPlacementWorkers
            ⟨⟨⟨cpT, itT, some ps⟩⟩, ⟨ispec, ⟨""⟩⟩, nc, none, none, none, pc⟩ := by
        simp [handleSingleNode4Dot11Upgrade, hc, ht]
      rw [hh, if_neg (by rintro ⟨_, _, _, h⟩; exact ht h)]
      exact patch_placement_ok _ _ rfl h6
  · have hh : handleSingleNode4Dot11Upgrade
        ⟨⟨⟨cpT, itT, some ps⟩⟩, ⟨ispec, ⟨""⟩⟩, nc, none, none, none, pc⟩ =
        patchDefaultPlacement DefaultPlacementWorkers
          ⟨⟨⟨cpT, itT, some ps⟩⟩, ⟨ispec, ⟨""⟩⟩, nc, none, none, none, pc⟩ := by
      simp [handleSingleNode4Dot11Upgrade, hc]
    rw [hh, if_neg (by rintro ⟨ha, hb, hcc, _⟩; exact hc ⟨ha, hb, hcc⟩)]
    exact patch_placement_ok _ _ rfl h6

/-- C4 witness: a single-node SingleReplica None-platform store on
which the gate patches ControlPlane. -/
theorem C4_witness :
    (({ infra := { status := { controlPlaneTopology := SingleReplicaTopologyMode,
                               infrastructureTopology := SingleReplicaTopologyMode,
                               platformStatus := some { type := NonePlatformType } } },
        ingressConfig := { spec := { operatorLogLevel := "", lbPlatformType := "",
                                     lbAWSType := none },
                           status := { defaultPlacement := "" } },
        nodeCount := 1, getInfraErr := none, getIngressErr := none,
        listNodesErr := none, patchConflicts := 2 } : ClusterStore).patchConflicts < retrySteps) ∧
    ((handleSingleNode4Dot11Upgrade
      { infra := { status := { controlPlaneTopology := SingleReplicaTopologyMode,
                               infrastructureTopology := SingleReplicaTopologyMode,
                               platformStatus := some { type := NonePlatformType } } },
        ingressConfig := { spec := { operatorLogLevel := "", lbPlatformType := "",
                                     lbAWSType := none },
                           status := { defaultPlacement := "" } },
        nodeCount := 1, getInfraErr := none, getIngressErr := none,
        listNodesErr := none, patchConflicts := 2 }).res = .ok ∧
     (handleSingleNode4Dot11Upgrade
      { infra := { status := { controlPlaneTopology := SingleReplicaTopologyMode,
                               infrastructureTopology := SingleReplicaTopologyMode,
                               platformStatus := some { type := NonePlatformType } } },
        ingressConfig := { spec := { operatorLogLevel := "", lbPlatformType := "",
                                     lbAWSType := none },
                           status := { defaultPlacement := "" } },
        nodeCount := 1, getInfraErr := none, getIngressErr := none,
        listNodesErr := none, patchConflicts := 2 }).store.ingressConfig.status.defaultPlacement =
      (if (1 : Nat) = 1 ∧
          SingleReplicaTopologyMode = SingleReplicaTopologyMode ∧
          SingleReplicaTopologyMode = SingleReplicaTopologyMode ∧
          ({ type := NonePlatformType } : PlatformStatus).type = NonePlatformType
       then DefaultPlacementControlPlane else DefaultPlacementWorkers)) :=
  ⟨by decide, C4_thm _ { type := NonePlatformType } rfl rfl rfl rfl rfl (by decide)⟩

/-- C10: handleSingleNode4Dot11Upgrade dereferences the PlatformStatus
pointer only after the short-circuit conjunction establishes one node
and both topologies SingleReplica; it panics on a nil pointer exactly
when those conditions are reached (reads succeed, DefaultPlacement is
unset, node count is one, both topologies SingleReplica) with
PlatformStatus nil — so under the precondition that PlatformStatus is
non-nil whenever those conditions hold, the panic branch is
unreachable. -/
theorem C10_thm (s : ClusterStore) :
    (handleSingleNode4Dot11Upgrade s).res = .panicked ↔
      (s.getInfraErr = none ∧ s.getIngressErr = none ∧
       s.ingressConfig.status.defaultPlacement = "" ∧ s.listNodesErr = none ∧
       s.nodeCount = 1 ∧
       s.infra.status.controlPlaneTopology = SingleReplicaTopologyMode ∧
       s.infra.status.infrastructureTopology = SingleReplicaTopologyMode ∧
       s.infra.status.platformStatus = none) := by
  obtain ⟨⟨⟨cpT, itT, pfS⟩⟩, ⟨ispec, ⟨dp⟩⟩, nc, gi, gIe, lne, pc⟩ := s
  rcases gi with _ | e
  · rcases gIe with _ | e
    · by_cases hdp : dp = ""
      · subst hdp
        rcases lne with _ | e
        · by_cases hc : nc = 1 ∧ cpT = SingleReplicaTopologyMode ∧
              itT = SingleReplicaTopologyMode
          · rcases pfS with _ | ps
            · simp [handleSingleNode4Dot11Upgrade, hc, hc.1, hc.2.1, hc.2.2]
            · by_cases ht : ps.type = NonePlatformType
              · have hh : handleSingleNode4Dot11Upgrade
                    ⟨⟨⟨cpT, itT, some ps⟩⟩, ⟨ispec, ⟨""⟩⟩, nc, none, none, none, pc⟩ =
                    patchDefaultPlacement DefaultPlacementControlPlane
                      ⟨⟨⟨cpT, itT, some ps⟩⟩, ⟨ispec, ⟨""⟩⟩, nc, none, none, none, pc⟩ := by
                  simp [handleSingleNode4Dot11Upgrade, hc, ht]
                rw [hh]
                exact iff_of_false (patch_placement_ne_panicked _ _) (by simp)
              · have hh : handleSingleNode4Dot11Upgrade
                    ⟨⟨⟨cpT, itT, some ps⟩⟩, ⟨ispec, ⟨""⟩⟩, nc, none, none, none, pc⟩ =
                    patchDefaultPlacement DefaultPlacementWorkers
                      ⟨⟨⟨cpT, itT, some ps⟩⟩, ⟨ispec, ⟨""⟩⟩, nc, none, none, none, pc⟩ := by
                  simp [handleSingleNode4Dot11Upgrade, hc, ht]
                rw [hh]
                exact iff_of_false (patch_placement_ne_panicked _ _) (by simp)
          · have hh : handleSingleNode4Dot11Upgrade
                ⟨⟨⟨cpT, itT, pfS⟩⟩, ⟨ispec, ⟨""⟩⟩, nc, none, none, none, pc⟩ =
                patchDefaultPlacement DefaultPlacementWorkers
                  ⟨⟨⟨cpT, itT, pfS⟩⟩, ⟨ispec, ⟨""⟩⟩, nc, none, none, none, pc⟩ := by
              simp [handleSingleNode4Dot11Upgrade, hc]
            rw [hh]
            exact iff_of_false (patch_placement_ne_panicked _ _)
              (by rintro ⟨_, _, _, _, h5, h6, h7, _⟩; exact hc ⟨h5, h6, h7⟩)
        · simp [handleSingleNode4Dot11Upgrade]
      · simp [handleSingleNode4Dot11Upgrade, hdp]
    · simp [handleSingleNode4Dot11Upgrade]
  · simp [handleSingleNode4Dot11Upgrade]

/-- C8: the log-level regulator maps Debug to the zap Debug level (-1),
Trace to -2, TraceAll to -3, and every other setting (Normal included)
to Info (0); and when the computed level equals the stored level,
ensureLogLevel performs no SetLevel call — the state (its SetLevel
counter included) is returned unchanged. -/
theorem C8_thm (v : String) (ingressConfig : IngressConfig) (st : LogState)
    (hv : ¬(v = "Debug" ∨ v = "Trace" ∨ v = "TraceAll"))
    (hst : st.currentLevel = (desiredOperatorLogLevel ingressConfig.spec.operatorLogLevel).1) :
    desiredOperatorLogLevel "Debug" = (zapDebugLevel, 1) ∧
    desiredOperatorLogLevel "Trace" = (-2, 2) ∧
    desiredOperatorLogLevel "TraceAll" = (-3, 3) ∧
    desiredOperatorLogLevel "Normal" = (zapInfoLevel, 0) ∧
    (desiredOperatorLogLevel v).1 = zapInfoLevel ∧
    ensureLogLevel (.ok ingressConfig) st = st := by
  push_neg at hv
  obtain ⟨hv1, hv2, hv3⟩ := hv
  refine ⟨by simp [desiredOperatorLogLevel], by simp [desiredOperatorLogLevel],
    by simp [desiredOperatorLogLevel], by simp [desiredOperatorLogLevel],
    by simp [desiredOperatorLogLevel, hv1, hv2, hv3], ?_⟩
  simp [ensureLogLevel, hst]

/-- C8 witness: with the Normal setting and the Info level already
stored, ensureLogLevel leaves the state untouched. -/
theorem C8_witness :
    (¬(("Normal" : String) = "Debug" ∨ ("Normal" : String) = "Trace" ∨
        ("Normal" : String) = "TraceAll")) ∧
    (({ currentLevel := 0, setLevelCalls := 7 } : LogState).currentLevel =
      (desiredOperatorLogLevel
        ({ spec := { operatorLogLevel := "Normal", lbPlatformType := "", lbAWSType := none },
           status := { defaultPlacement := "" } } : IngressConfig).spec.operatorLogLevel).1) ∧
    (desiredOperatorLogLevel "Debug" = (zapDebugLevel, 1) ∧
     desiredOperatorLogLevel "Trace" = (-2, 2) ∧
     desiredOperatorLogLevel "TraceAll" = (-3, 3) ∧
     desiredOperatorLogLevel "Normal" = (zapInfoLevel, 0) ∧
     (desiredOperatorLogLevel "Normal").1 = zapInfoLevel ∧
     ensureLogLevel
       (.ok { spec := { operatorLogLevel := "Normal", lbPlatformType := "", lbAWSType := none },
              status := { defaultPlacement := "" } })
       { currentLevel := 0, setLevelCalls := 7 } =
       { currentLevel := 0, setLevelCalls := 7 }) :=
  ⟨by decide, by decide, C8_thm "Normal" _ _ (by decide) (by decide)⟩

theorem hasInjectLabel_trustedCACM : hasInjectLabel trustedCACM = true := by
  simp [hasInjectLabel, trustedCACM, List.lookup]

theorem ensure_cm_noFault (obj : Option ConfigMap) :
    ∃ cm, (ensureTrustedCAConfigMap ⟨obj, none, none, none, none⟩).err = none ∧
      (ensureTrustedCAConfigMap ⟨obj, none, none, none, none⟩).store =
        ⟨some cm, none, none, none, none⟩ ∧
      hasInjectLabel cm = true := by
  rcases obj with _ | cm
  · exact ⟨trustedCACM, rfl, rfl, hasInjectLabel_trustedCACM⟩
  · by_cases hl : hasInjectLabel cm
    · refine ⟨cm, ?_, ?_, hl⟩ <;>
        simp [ensureTrustedCAConfigMap, desiredTrustedCAConfigMap, currentTrustedCAConfigMap,
          ensureTrustedCAConfigMapSwitch, updateTrustedCAConfigMap, hl]
    · refine ⟨{ cm with labels := some (mapSet (cm.labels.getD []) injectKey "true") },
        ?_, ?_, hasInjectLabel_mapSet cm _⟩ <;>
        simp [ensureTrustedCAConfigMap, desiredTrustedCAConfigMap, currentTrustedCAConfigMap,
          ensureTrustedCAConfigMapSwitch, updateTrustedCAConfigMap, hl]

theorem ensure_cm_labelled (cm : ConfigMap) (hl : hasInjectLabel cm = true) :
    ensureTrustedCAConfigMap ⟨some cm, none, none, none, none⟩ =
      { haveCM := true, cm := some cm, err := none
        store := ⟨some cm, none, none, none, none⟩, ops := [.get] } := by
  simp [ensureTrustedCAConfigMap, desiredTrustedCAConfigMap, currentTrustedCAConfigMap,
    ensureTrustedCAConfigMapSwitch, updateTrustedCAConfigMap, hl]

theorem ensure_sub_noFault (obj : Option Subscription) :
    ∃ sub, (ensureServiceMeshOperatorSubscription ⟨obj, none, none, none⟩).err = none ∧
      (ensureServiceMeshOperatorSubscription ⟨obj, none, none, none⟩).store =
        ⟨some sub, none, none, none⟩ ∧
      sub.spec = smoSubscription.spec := by
  rcases obj with _ | sub
  · exact ⟨smoSubscription, rfl, rfl, rfl⟩
  · by_cases hs : sub.spec = smoSubscription.spec
    · refine ⟨sub, ?_, ?_, hs⟩ <;>
        simp [ensureServiceMeshOperatorSubscription, desiredSubscription, currentSubscription,
          createSubscription, updateSubscription, subscriptionChanged, hs]
    · refine ⟨{ sub with spec := smoSubscription.spec }, ?_, ?_, rfl⟩ <;>
        simp [ensureServiceMeshOperatorSubscription, desiredSubscription, currentSubscription,
          createSubscription, updateSubscription, subscriptionChanged, hs]

theorem ensure_sub_insync (sub : Subscription) (hs : sub.spec = smoSubscription.spec) :
    ensureServiceMeshOperatorSubscription ⟨some sub, none, none, none⟩ =
      { haveSub := true, sub := some sub, err := none
        store := ⟨some sub, none, none, none⟩, ops := [.get] } := by
  simp [ensureServiceMeshOperatorSubscription, desiredSubscription, currentSubscription,
    createSubscription, updateSubscription, subscriptionChanged, hs]

theorem ensure_ic_noFault (infraConfig : Infrastructure) (ingressConfig : IngressConfig)
    (opNs : String) (obj : Option IngressController) :
    ∃ ic, (ensureDefaultIngressController infraConfig ingressConfig opNs ⟨obj, none, none⟩).err = none ∧
      (ensureDefaultIngressController infraConfig ingressConfig opNs ⟨obj, none, none⟩).store =
        ⟨some ic, none, none⟩ := by
  rcases obj with _ | ic
  · exact ⟨_, rfl, rfl⟩
  · exact ⟨ic, rfl, rfl⟩

theorem ensure_ic_present (infraConfig : Infrastructure) (ingressConfig : IngressConfig)
    (opNs : String) (ic : IngressController) :
    ensureDefaultIngressController infraConfig ingressConfig opNs ⟨some ic, none, none⟩ =
      { err := none, store := ⟨some ic, none, none⟩, ops := [.get] } := rfl

/-- C2: for each ensure-style operation, running it twice with no
external mutation of the store and no injected faults succeeds both
times, and the second call performs no write at all — its only client
call is the read, and it leaves the store exactly as the first call left
it (label already set / specs equal / object already existing). -/
theorem C2_thm (s1 : CMStore) (s2 : SubStore) (s3 : ICStore)
    (infraConfig : Infrastructure) (ingressConfig : IngressConfig) (opNs : String)
    (h1g : s1.getErr = none) (h1c : s1.createErr = none)
    (h1u : s1.updateErr = none) (h1d : s1.deleteErr = none)
    (h2g : s2.getErr = none) (h2c : s2.createErr = none) (h2u : s2.updateErr = none)
    (h3g : s3.getErr = none) (h3c : s3.createErr = none) :
    ((ensureTrustedCAConfigMap s1).err = none ∧
     (ensureTrustedCAConfigMap (ensureTrustedCAConfigMap s1).store).err = none ∧
     (ensureTrustedCAConfigMap (ensureTrustedCAConfigMap s1).store).ops = [.get] ∧
     (ensureTrustedCAConfigMap (ensureTrustedCAConfigMap s1).store).store =
       (ensureTrustedCAConfigMap s1).store) ∧
    ((ensureServiceMeshOperatorSubscription s2).err = none ∧
     (ensureServiceMeshOperatorSubscription (ensureServiceMeshOperatorSubscription s2).store).err = none ∧
     (ensureServiceMeshOperatorSubscription (ensureServiceMeshOperatorSubscription s2).store).ops = [.get] ∧
     (ensureServiceMeshOperatorSubscription (ensureServiceMeshOperatorSubscription s2).store).store =
       (ensureServiceMeshOperatorSubscription s2).store) ∧
    ((ensureDefaultIngressController infraConfig ingressConfig opNs s3).err = none ∧
     (ensureDefaultIngressController infraConfig ingressConfig opNs
        (ensureDefaultIngressController infraConfig ingressConfig opNs s3).store).err = none ∧
     (ensureDefaultIngressController infraConfig ingressConfig opNs
        (ensureDefaultIngressController infraConfig ingressConfig opNs s3).store).ops = [.get] ∧
     (ensureDefaultIngressController infraConfig ingressConfig opNs
        (ensureDefaultIngressController infraConfig ingressConfig opNs s3).store).store =
       (ensureDefaultIngressController infraConfig ingressConfig opNs s3).store) := by
  obtain ⟨obj1, g1, c1, u1, d1⟩ := s1
  obtain ⟨obj2, g2, c2, u2⟩ := s2
  obtain ⟨obj3, g3, c3⟩ := s3
  dsimp only at h1g h1c h1u h1d h2g h2c h2u h3g h3c
  subst h1g; subst h1c; subst h1u; subst h1d
  subst h2g; subst h2c; subst h2u
  subst h3g; subst h3c
  obtain ⟨cm, he1, hs1, hl1⟩ := ensure_cm_noFault obj1
  obtain ⟨sub, he2, hs2, hp2⟩ := ensure_sub_noFault obj2
  obtain ⟨ic, he3, hs3⟩ := ensure_ic_noFault infraConfig ingressConfig opNs obj3
  refine ⟨⟨he1, ?_, ?_, ?_⟩, ⟨he2, ?_, ?_, ?_⟩, ⟨he3, ?_, ?_, ?_⟩⟩
  · rw [hs1, ensure_cm_labelled cm hl1]
  · rw [hs1, ensure_cm_labelled cm hl1]
  · rw [hs1, ensure_cm_labelled cm hl1]
  · rw [hs2, ensure_sub_insync sub hp2]
  · rw [hs2, ensure_sub_insync sub hp2]
  · rw [hs2, ensure_sub_insync sub hp2]
  · rw [hs3, ensure_ic_present infraConfig ingressConfig opNs ic]
  · rw [hs3, ensure_ic_present infraConfig ingressConfig opNs ic]
  · rw [hs3, ensure_ic_present infraConfig ingressConfig opNs ic]

/-- C2 witness: empty fault-free stores; both calls succeed and the
second is read-only. -/
theorem C2_witness :
    ((⟨none, none, none, none, none⟩ : CMStore).getErr = none) ∧
    ((⟨none, none, none, none⟩ : SubStore).getErr = none) ∧
    ((⟨none, none, none⟩ : ICStore).getErr = none) ∧
    (((ensureTrustedCAConfigMap ⟨none, none, none, none, none⟩).err = none ∧
      (ensureTrustedCAConfigMap (ensureTrustedCAConfigMap ⟨none, none, none, none, none⟩).store).err = none ∧
      (ensureTrustedCAConfigMap (ensureTrustedCAConfigMap ⟨none, none, none, none, none⟩).store).ops = [.get] ∧
      (ensureTrustedCAConfigMap (ensureTrustedCAConfigMap ⟨none, none, none, none, none⟩).store).store =
        (ensureTrustedCAConfigMap ⟨none, none, none, none, none⟩).store) ∧
     ((ensureServiceMeshOperatorSubscription ⟨none, none, none, none⟩).err = none ∧
      (ensureServiceMeshOperatorSubscription
        (ensureServiceMeshOperatorSubscription ⟨none, none, none, none⟩).store).err = none ∧
      (ensureServiceMeshOperatorSubscription
        (ensureServiceMeshOperatorSubscription ⟨none, none, none, none⟩).store).ops = [.get] ∧
      (ensureServiceMeshOperatorSubscription
        (ensureServiceMeshOperatorSubscription ⟨none, none, none, none⟩).store).store =
        (ensureServiceMeshOperatorSubscription ⟨none, none, none, none⟩).store) ∧
     ((ensureDefaultIngressController
        { status := { controlPlaneTopology := "HighlyAvailable",
                      infrastructureTopology := "HighlyAvailable",
                      platformStatus := some { type := "AWS" } } }
        { spec := { operatorLogLevel := "Normal", lbPlatformType := "", lbAWSType := none },
          status := { defaultPlacement := DefaultPlacementWorkers } }
        "openshift-ingress-operator" ⟨none, none, none⟩).err = none ∧
      (ensureDefaultIngressController
        { status := { controlPlaneTopology := "HighlyAvailable",
                      infrastructureTopology := "HighlyAvailable",
                      platformStatus := some { type := "AWS" } } }
        { spec := { operatorLogLevel := "Normal", lbPlatformType := "", lbAWSType := none },
          status := { defaultPlacement := DefaultPlacementWorkers } }
        "openshift-ingress-operator"
        (ensureDefaultIngressController
          { status := { controlPlaneTopology := "HighlyAvailable",
                        infrastructureTopology := "HighlyAvailable",
                        platformStatus := some { type := "AWS" } } }
          { spec := { operatorLogLevel := "Normal", lbPlatformType := "", lbAWSType := none },
            status := { defaultPlacement := DefaultPlacementWorkers } }
          "openshift-ingress-operator" ⟨none, none, none⟩).store).err = none ∧
      (ensureDefaultIngressController
        { status := { controlPlaneTopology := "HighlyAvailable",
                      infrastructureTopology := "HighlyAvailable",
                      platformStatus := some { type := "AWS" } } }
        { spec := { operatorLogLevel := "Normal", lbPlatformType := "", lbAWSType := none },
          status := { defaultPlacement := DefaultPlacementWorkers } }
        "openshift-ingress-operator"
        (ensureDefaultIngressController
          { status := { controlPlaneTopology := "HighlyAvailable",
                        infrastructureTopology := "HighlyAvailable",
                        platformStatus := some { type := "AWS" } } }
          { spec := { operatorLogLevel := "Normal", lbPlatformType := "", lbAWSType := none },
            status := { defaultPlacement := DefaultPlacementWorkers } }
          "openshift-ingress-operator" ⟨none, none, none⟩).store).ops = [.get] ∧
      (ensureDefaultIngressController
        { status := { controlPlaneTopology := "HighlyAvailable",
                      infrastructureTopology := "HighlyAvailable",
                      platformStatus := some { type := "AWS" } } }
        { spec := { operatorLogLevel := "Normal", lbPlatformType := "", lbAWSType := none },
          status := { defaultPlacement := DefaultPlacementWorkers } }
        "openshift-ingress-operator"
        (ensureDefaultIngressController
          { status := { controlPlaneTopology := "HighlyAvailable",
                        infrastructureTopology := "HighlyAvailable",
                        platformStatus := some { type := "AWS" } } }
          { spec := { operatorLogLevel := "Normal", lbPlatformType := "", lbAWSType := none },
            status := { defaultPlacement := DefaultPlacementWorkers } }
          "openshift-ingress-operator" ⟨none, none, none⟩).store).store =
        (ensureDefaultIngressController
          { status := { controlPlaneTopology := "HighlyAvailable",
                        infrastructureTopology := "HighlyAvailable",
                        platformStatus := some { type := "AWS" } } }
          { spec := { operatorLogLevel := "Normal", lbPlatformType := "", lbAWSType := none },
            status := { defaultPlacement := DefaultPlacementWorkers } }
          "openshift-ingress-operator" ⟨none, none, none⟩).store)) :=
  ⟨rfl, rfl, rfl,
    C2_thm ⟨none, none, none, none, none⟩ ⟨none, none, none, none⟩ ⟨none, none, none⟩
      { status := { controlPlaneTopology := "HighlyAvailable",
                    infrastructureTopology := "HighlyAvailable",
                    platformStatus := some { type := "AWS" } } }
      { spec := { operatorLogLevel := "Normal", lbPlatformType := "", lbAWSType := none },
        status := { defaultPlacement := DefaultPlacementWorkers } }
      "openshift-ingress-operator" rfl rfl rfl rfl rfl rfl rfl rfl rfl⟩

/-- C9: desiredTrustedCAConfigMap always wants the configmap and never
fails, so ensureTrustedCAConfigMap never reaches its two want-false
branches: no invocation, on any store state, ever issues a Delete of the
trusted-CA configmap. -/
theorem C9_thm :
    desiredTrustedCAConfigMap.1 = true ∧ desiredTrustedCAConfigMap.2.2 = none ∧
    ∀ s : CMStore, CMOp.delete ∉ (ensureTrustedCAConfigMap s).ops := by
  refine ⟨rfl, rfl, ?_⟩
  intro s
  obtain ⟨obj, g, c, u, d⟩ := s
  rcases g with _ | e
  · rcases obj with _ | cm
    · rcases c with _ | ce <;>
        simp [ensureTrustedCAConfigMap, desiredTrustedCAConfigMap, currentTrustedCAConfigMap,
          ensureTrustedCAConfigMapSwitch, updateTrustedCAConfigMap]
    · by_cases hl : hasInjectLabel cm
      · simp [ensureTrustedCAConfigMap, desiredTrustedCAConfigMap, currentTrustedCAConfigMap,
          ensureTrustedCAConfigMapSwitch, updateTrustedCAConfigMap, hl]
      · rcases u with _ | ue
        · simp [ensureTrustedCAConfigMap, desiredTrustedCAConfigMap, currentTrustedCAConfigMap,
            ensureTrustedCAConfigMapSwitch, updateTrustedCAConfigMap, hl]
        · by_cases hae : ue = StoreError.alreadyExists <;>
            simp [ensureTrustedCAConfigMap, desiredTrustedCAConfigMap, currentTrustedCAConfigMap,
              ensureTrustedCAConfigMapSwitch, updateTrustedCAConfigMap, hl, hae]
  · rcases e with _ | _ | _ | msg
    · rcases c with _ | ce
      · rcases obj with _ | cm <;>
          simp [ensureTrustedCAConfigMap, desiredTrustedCAConfigMap, currentTrustedCAConfigMap,
            ensureTrustedCAConfigMapSwitch, updateTrustedCAConfigMap, StoreError.isNotFound]
      · simp [ensureTrustedCAConfigMap, desiredTrustedCAConfigMap, currentTrustedCAConfigMap,
          ensureTrustedCAConfigMapSwitch, updateTrustedCAConfigMap, StoreError.isNotFound]
    · simp [ensureTrustedCAConfigMap, desiredTrustedCAConfigMap, currentTrustedCAConfigMap,
        ensureTrustedCAConfigMapSwitch, StoreError.isNotFound]
    · simp [ensureTrustedCAConfigMap, desiredTrustedCAConfigMap, currentTrustedCAConfigMap,
        ensureTrustedCAConfigMapSwitch, StoreError.isNotFound]
    · simp [ensureTrustedCAConfigMap, desiredTrustedCAConfigMap, currentTrustedCAConfigMap,
        ensureTrustedCAConfigMapSwitch, StoreError.isNotFound]

/-- C6: in the want-false/have-true branch of the configmap convergence
switch, a Delete is issued, and both a successful delete and a NotFound
from the delete produce the same successful result (false, nil, nil):
NotFound-on-delete is treated as already satisfied. -/
theorem C6_thm (s : CMStore) (desired : ConfigMap) (cur : Option ConfigMap)
    (h : s.deleteErr = some .notFound ∨ s.deleteErr = none) :
    (ensureTrustedCAConfigMapSwitch s false true desired cur).ops = [.delete] ∧
    (ensureTrustedCAConfigMapSwitch s false true desired cur).err = none ∧
    (ensureTrustedCAConfigMapSwitch s false true desired cur).haveCM = false ∧
    (ensureTrustedCAConfigMapSwitch s false true desired cur).cm = none := by
  obtain ⟨obj, g, c, u, d⟩ := s
  dsimp only at h
  rcases h with h | h <;> subst h
  · simp [ensureTrustedCAConfigMapSwitch, StoreError.isNotFound]
  · rcases obj with _ | cm <;> simp [ensureTrustedCAConfigMapSwitch]

/-- C6 witness: a store holding the configmap whose delete endpoint
reports NotFound; the branch still reports success. -/
theorem C6_witness :
    ((⟨some trustedCACM, none, none, none, some .notFound⟩ : CMStore).deleteErr =
        some StoreError.notFound ∨
      (⟨some trustedCACM, none, none, none, some .notFound⟩ : CMStore).deleteErr = none) ∧
    ((ensureTrustedCAConfigMapSwitch ⟨some trustedCACM, none, none, none, some .notFound⟩
        false true trustedCACM (some trustedCACM)).ops = [.delete] ∧
     (ensureTrustedCAConfigMapSwitch ⟨some trustedCACM, none, none, none, some .notFound⟩
        false true trustedCACM (some trustedCACM)).err = none ∧
     (ensureTrustedCAConfigMapSwitch ⟨some trustedCACM, none, none, none, some .notFound⟩
        false true trustedCACM (some trustedCACM)).haveCM = false ∧
     (ensureTrustedCAConfigMapSwitch ⟨some trustedCACM, none, none, none, some .notFound⟩
        false true trustedCACM (some trustedCACM)).cm = none) :=
  ⟨Or.inl rfl,
    C6_thm ⟨some trustedCACM, none, none, none, some .notFound⟩ trustedCACM
      (some trustedCACM) (Or.inl rfl)⟩

/-- C3: when the comparator reports a change, the merged object is a
deep copy of current with only the desired-owned fields overwritten.
For the subscription, the merged object returned by subscriptionChanged
keeps current's name, namespace, labels, annotations, concurrency token
and status and takes the expected Spec.  For the configmap, the object
written by updateTrustedCAConfigMap keeps current's name, namespace,
annotations, data and concurrency token, sets the single inject label to
"true", and leaves every other label entry of current unchanged. -/
theorem C3_thm (cur expected : Subscription) (s : CMStore) (ccur cdes x : ConfigMap)
    (hch : (subscriptionChanged cur expected).1 = true)
    (hlb : hasInjectLabel ccur = false)
    (hobj : s.obj = some x) (hupd : s.updateErr = none) :
    ((subscriptionChanged cur expected).2.map Subscription.name = some cur.name ∧
     (subscriptionChanged cur expected).2.map Subscription.ns = some cur.ns ∧
     (subscriptionChanged cur expected).2.map Subscription.labels = some cur.labels ∧
     (subscriptionChanged cur expected).2.map Subscription.annot = some cur.annot ∧
     (subscriptionChanged cur expected).2.map Subscription.resourceVersion =
       some cur.resourceVersion ∧
     (subscriptionChanged cur expected).2.map Subscription.status = some cur.status ∧
     (subscriptionChanged cur expected).2.map Subscription.spec = some expected.spec) ∧
    ((updateTrustedCAConfigMap s ccur cdes).store.obj.map ConfigMap.name = some ccur.name ∧
     (updateTrustedCAConfigMap s ccur cdes).store.obj.map ConfigMap.ns = some ccur.ns ∧
     (updateTrustedCAConfigMap s ccur cdes).store.obj.map ConfigMap.annot = some ccur.annot ∧
     (updateTrustedCAConfigMap s ccur cdes).store.obj.map ConfigMap.data = some ccur.data ∧
     (updateTrustedCAConfigMap s ccur cdes).store.obj.map ConfigMap.resourceVersion =
       some ccur.resourceVersion ∧
     (updateTrustedCAConfigMap s ccur cdes).store.obj.map
        (fun u => (u.labels.getD []).lookup injectKey) = some (some "true") ∧
     (updateTrustedCAConfigMap s ccur cdes).store.obj.map
        (fun u => (u.labels.getD []).filter (fun p => p.1 ≠ injectKey)) =
       some ((ccur.labels.getD []).filter (fun p => p.1 ≠ injectKey))) := by
  have hne : ¬(cur.spec = expected.spec) := by
    intro hs
    rw [subscriptionChanged, if_pos hs] at hch
    exact Bool.false_ne_true hch
  obtain ⟨obj, g, c, u, d⟩ := s
  dsimp only at hobj hupd
  subst hobj; subst hupd
  constructor
  · simp [subscriptionChanged, hne]
  · refine ⟨?_, ?_, ?_, ?_, ?_, ?_, ?_⟩ <;>
      simp [updateTrustedCAConfigMap, hlb, mapSet, List.lookup, mapSet_filter_ne]

/-- C3 witness: a subscription whose spec differs from the expected one
and a configmap without the inject label; the merged objects preserve
all non-owned fields. -/
theorem C3_witness :
    ((subscriptionChanged
        { name := "s", ns := "n", labels := [("a", "b")], annot := [("c", "d")],
          resourceVersion := 9, spec := none, status := "st" }
        smoSubscription).1 = true) ∧
    (hasInjectLabel
      { name := "cm", ns := "n", annot := [("c", "d")], labels := some [("other", "v")],
        data := [("k", "v")], resourceVersion := 4 } = false) ∧
    (((subscriptionChanged
        { name := "s", ns := "n", labels := [("a", "b")], annot := [("c", "d")],
          resourceVersion := 9, spec := none, status := "st" }
        smoSubscription).2.map Subscription.name = some "s" ∧
      (subscriptionChanged
        { name := "s", ns := "n", labels := [("a", "b")], annot := [("c", "d")],
          resourceVersion := 9, spec := none, status := "st" }
        smoSubscription).2.map Subscription.ns = some "n" ∧
      (subscriptionChanged
        { name := "s", ns := "n", labels := [("a", "b")], annot := [("c", "d")],
          resourceVersion := 9, spec := none, status := "st" }
        smoSubscription).2.map Subscription.labels = some [("a", "b")] ∧
      (subscriptionChanged
        { name := "s", ns := "n", labels := [("a", "b")], annot := [("c", "d")],
          resourceVersion := 9, spec := none, status := "st" }
        smoSubscription).2.map Subscription.annot = some [("c", "d")] ∧
      (subscriptionChanged
        { name := "s", ns := "n", labels := [("a", "b")], annot := [("c", "d")],
          resourceVersion := 9, spec := none, status := "st" }
        smoSubscription).2.map Subscription.resourceVersion = some 9 ∧
      (subscriptionChanged
        { name := "s", ns := "n", labels := [("a", "b")], annot := [("c", "d")],
          resourceVersion := 9, spec := none, status := "st" }
        smoSubscription).2.map Subscription.status = some "st" ∧
      (subscriptionChanged
        { name := "s", ns := "n", labels := [("a", "b")], annot := [("c", "d")],
          resourceVersion := 9, spec := none, status := "st" }
        smoSubscription).2.map Subscription.spec = some smoSubscription.spec) ∧
     ((updateTrustedCAConfigMap
        ⟨some { name := "cm", ns := "n", annot := [("c", "d")], labels := some [("other", "v")],
                data := [("k", "v")], resourceVersion := 4 }, none, none, none, none⟩
        { name := "cm", ns := "n", annot := [("c", "d")], labels := some [("other", "v")],
          data := [("k", "v")], resourceVersion := 4 }
        trustedCACM).store.obj.map ConfigMap.name = some "cm" ∧
      (updateTrustedCAConfigMap
        ⟨some { name := "cm", ns := "n", annot := [("c", "d")], labels := some [("other", "v")],
                data := [("k", "v")], resourceVersion := 4 }, none, none, none, none⟩
        { name := "cm", ns := "n", annot := [("c", "d")], labels := some [("other", "v")],
          data := [("k", "v")], resourceVersion := 4 }
        trustedCACM).store.obj.map ConfigMap.ns = some "n" ∧
      (updateTrustedCAConfigMap
        ⟨some { name := "cm", ns := "n", annot := [("c", "d")], labels := some [("other", "v")],
                data := [("k", "v")], resourceVersion := 4 }, none, none, none, none⟩
        { name := "cm", ns := "n", annot := [("c", "d")], labels := some [("other", "v")],
          data := [("k", "v")], resourceVersion := 4 }
        trustedCACM).store.obj.map ConfigMap.annot = some [("c", "d")] ∧
      (updateTrustedCAConfigMap
        ⟨some { name := "cm", ns := "n", annot := [("c", "d")], labels := some [("other", "v")],
                data := [("k", "v")], resourceVersion := 4 }, none, none, none, none⟩
        { name := "cm", ns := "n", annot := [("c", "d")], labels := some [("other", "v")],
          data := [("k", "v")], resourceVersion := 4 }
        trustedCACM).store.obj.map ConfigMap.data = some [("k", "v")] ∧
      (updateTrustedCAConfigMap
        ⟨some { name := "cm", ns := "n", annot := [("c", "d")], labels := some [("other", "v")],
                data := [("k", "v")], resourceVersion := 4 }, none, none, none, none⟩
        { name := "cm", ns := "n", annot := [("c", "d")], labels := some [("other", "v")],
          data := [("k", "v")], resourceVersion := 4 }
        trustedCACM).store.obj.map ConfigMap.resourceVersion = some 4 ∧
      (updateTrustedCAConfigMap
        ⟨some { name := "cm", ns := "n", annot := [("c", "d")], labels := some [("other", "v")],
                data := [("k", "v")], resourceVersion := 4 }, none, none, none, none⟩
        { name := "cm", ns := "n", annot := [("c", "d")], labels := some [("other", "v")],
          data := [("k", "v")], resourceVersion := 4 }
        trustedCACM).store.obj.map
          (fun u => (u.labels.getD []).lookup injectKey) = some (some "true") ∧
      (updateTrustedCAConfigMap
        ⟨some { name := "cm", ns := "n", annot := [("c", "d")], labels := some [("other", "v")],
                data := [("k", "v")], resourceVersion := 4 }, none, none, none, none⟩
        { name := "cm", ns := "n", annot := [("c", "d")], labels := some [("other", "v")],
          data := [("k", "v")], resourceVersion := 4 }
        trustedCACM).store.obj.map
          (fun u => (u.labels.getD []).filter (fun p => p.1 ≠ injectKey)) =
        some (([(("other" : String), ("v" : String))] :
            List (String × String)).filter (fun p => p.1 ≠ injectKey)))) :=
  ⟨by decide, by decide,
    C3_thm
      { name := "s", ns := "n", labels := [("a", "b")], annot := [("c", "d")],
        resourceVersion := 9, spec := none, status := "st" }
      smoSubscription
      ⟨some { name := "cm", ns := "n", annot := [("c", "d")], labels := some [("other", "v")],
              data := [("k", "v")], resourceVersion := 4 }, none, none, none, none⟩
      { name := "cm", ns := "n", annot := [("c", "d")], labels := some [("other", "v")],
        data := [("k", "v")], resourceVersion := 4 }
      trustedCACM
      { name := "cm", ns := "n", annot := [("c", "d")], labels := some [("other", "v")],
        data := [("k", "v")], resourceVersion := 4 }
      (by decide) (by decide) rfl rfl⟩

/-- C1 counterexample: with the trusted-CA configmap absent and the
store reporting AlreadyExists on the Create (a lost race), the operation
does not re-fetch and return success — it returns the wrapped
AlreadyExists error to the caller. -/
theorem C1_counterexample :
    (ensureTrustedCAConfigMap ⟨none, none, some .alreadyExists, none, none⟩).err ≠ none ∧
    (ensureTrustedCAConfigMap ⟨none, none, some .alreadyExists, none, none⟩).err =
      some (.wrapped "failed to create configmap" (.store .alreadyExists)) :=
  ⟨by decide, rfl⟩

/-- C1 amended: when the resource is wanted but absent, each of the
three ensure operations issues exactly one Create of the desired object,
and any Create error — AlreadyExists included — is returned to the
caller (wrapped with a contextual message by the configmap and
subscription operations, unmodified by ensureDefaultIngressController);
none of them re-fetches and treats AlreadyExists as success. -/
theorem C1_amended_thm (e : StoreError)
    (s1 : CMStore) (s2 : SubStore) (s3 : ICStore)
    (infraConfig : Infrastructure) (ingressConfig : IngressConfig) (opNs : String)
    (h1o : s1.obj = none) (h1g : s1.getErr = none) (h1c : s1.createErr = some e)
    (h2o : s2.obj = none) (h2g : s2.getErr = none) (h2c : s2.createErr = some e)
    (h3o : s3.obj = none) (h3g : s3.getErr = none) (h3c : s3.createErr = some e) :
    ((ensureTrustedCAConfigMap s1).ops.countP (fun op => op.isCreateOp) = 1 ∧
     (ensureTrustedCAConfigMap s1).err =
       some (.wrapped "failed to create configmap" (.store e))) ∧
    ((ensureServiceMeshOperatorSubscription s2).ops.countP (fun op => op.isCreateOp) = 1 ∧
     (ensureServiceMeshOperatorSubscription s2).err =
       some (.wrapped "failed to create subscription" (.store e))) ∧
    ((ensureDefaultIngressController infraConfig ingressConfig opNs s3).ops.countP
        (fun op => op.isCreateOp) = 1 ∧
     (ensureDefaultIngressController infraConfig ingressConfig opNs s3).err =
       some (.store e)) := by
  obtain ⟨obj1, g1, c1, u1, d1⟩ := s1
  obtain ⟨obj2, g2, c2, u2⟩ := s2
  obtain ⟨obj3, g3, c3⟩ := s3
  dsimp only at h1o h1g h1c h2o h2g h2c h3o h3g h3c
  subst h1o; subst h1g; subst h1c
  subst h2o; subst h2g; subst h2c
  subst h3o; subst h3g; subst h3c
  refine ⟨⟨?_, ?_⟩, ⟨?_, ?_⟩, ⟨?_, ?_⟩⟩ <;>
    simp [ensureTrustedCAConfigMap, desiredTrustedCAConfigMap, currentTrustedCAConfigMap,
      ensureTrustedCAConfigMapSwitch, ensureServiceMeshOperatorSubscription,
      desiredSubscription, currentSubscription, createSubscription,
      ensureDefaultIngressController, icGet, StoreError.isNotFound,
      CMOp.isCreateOp, SubOp.isCreateOp, ICOp.isCreateOp, List.countP_cons]

/-- C1 witness: concrete empty stores whose Create endpoints report
AlreadyExists; all three operations report the error. -/
theorem C1_witness :
    ((⟨none, none, some .alreadyExists, none, none⟩ : CMStore).obj = none) ∧
    ((⟨none, none, some .alreadyExists, none, none⟩ : CMStore).getErr = none) ∧
    ((⟨none, none, some .alreadyExists, none, none⟩ : CMStore).createErr =
      some StoreError.alreadyExists) ∧
    ((⟨none, none, some .alreadyExists, none⟩ : SubStore).obj = none) ∧
    ((⟨none, none, some .alreadyExists, none⟩ : SubStore).getErr = none) ∧
    ((⟨none, none, some .alreadyExists, none⟩ : SubStore).createErr =
      some StoreError.alreadyExists) ∧
    ((⟨none, none, some .alreadyExists⟩ : ICStore).obj = none) ∧
    ((⟨none, none, some .alreadyExists⟩ : ICStore).getErr = none) ∧
    ((⟨none, none, some .alreadyExists⟩ : ICStore).createErr =
      some StoreError.alreadyExists) ∧
    (((ensureTrustedCAConfigMap ⟨none, none, some .alreadyExists, none, none⟩).ops.countP
        (fun op => op.isCreateOp) = 1 ∧
      (ensureTrustedCAConfigMap ⟨none, none, some .alreadyExists, none, none⟩).err =
        some (.wrapped "failed to create configmap" (.store .alreadyExists))) ∧
     ((ensureServiceMeshOperatorSubscription ⟨none, none, some .alreadyExists, none⟩).ops.countP
        (fun op => op.isCreateOp) = 1 ∧
      (ensureServiceMeshOperatorSubscription ⟨none, none, some .alreadyExists, none⟩).err =
        some (.wrapped "failed to create subscription" (.store .alreadyExists))) ∧
     ((ensureDefaultIngressController
        { status := { controlPlaneTopology := "HighlyAvailable",
                      infrastructureTopology := "HighlyAvailable",
                      platformStatus := some { type := "AWS" } } }
        { spec := { operatorLogLevel := "Normal", lbPlatformType := "", lbAWSType := none },
          status := { defaultPlacement := DefaultPlacementWorkers } }
        "openshift-ingress-operator" ⟨none, none, some .alreadyExists⟩).ops.countP
        (fun op => op.isCreateOp) = 1 ∧
      (ensureDefaultIngressController
        { status := { controlPlaneTopology := "HighlyAvailable",
                      infrastructureTopology := "HighlyAvailable",
                      platformStatus := some { type := "AWS" } } }
        { spec := { operatorLogLevel := "Normal", lbPlatformType := "", lbAWSType := none },
          status := { defaultPlacement := DefaultPlacementWorkers } }
        "openshift-ingress-operator" ⟨none, none, some .alreadyExists⟩).err =
        some (.store .alreadyExists))) :=
  ⟨rfl, rfl, rfl, rfl, rfl, rfl, rfl, rfl, rfl,
    C1_amended_thm .alreadyExists
      ⟨none, none, some .alreadyExists, none, none⟩
      ⟨none, none, some .alreadyExists, none⟩
      ⟨none, none, some .alreadyExists⟩
      { status := { controlPlaneTopology := "HighlyAvailable",
                    infrastructureTopology := "HighlyAvailable",
                    platformStatus := some { type := "AWS" } } }
      { spec := { operatorLogLevel := "Normal", lbPlatformType := "", lbAWSType := none },
        status := { defaultPlacement := DefaultPlacementWorkers } }
      "openshift-ingress-operator" rfl rfl rfl rfl rfl rfl rfl rfl rfl⟩

/-- C7 counterexample: a transient Create failure in the configmap path
is returned to the caller wrapped in a contextual message, not as an
error value identical to the one produced by the store call. -/
theorem C7_counterexample :
    (ensureTrustedCAConfigMap ⟨none, none, some (.transient "boom"), none, none⟩).err =
      some (.wrapped "failed to create configmap" (.store (.transient "boom"))) ∧
    (ensureTrustedCAConfigMap ⟨none, none, some (.transient "boom"), none, none⟩).err ≠
      some (.store (.transient "boom")) :=
  ⟨rfl, by decide⟩

/-- C7 amended: transport/store errors outside the locally-resolved
race classes are propagated to the caller with no local retry (the
failed store call is attempted exactly once): configmap Get errors and
all ensureDefaultIngressController errors are returned identically,
while the configmap create/update/delete and subscription create paths
return them wrapped in a message naming the failed operation, with the
store error preserved as the cause. -/
theorem C7_amended_thm (msg : String)
    (sg sc su sd : CMStore) (ss : SubStore) (si : ICStore)
    (desired x : ConfigMap) (cur : Option ConfigMap)
    (infraConfig : Infrastructure) (ingressConfig : IngressConfig) (opNs : String)
    (hg : sg.getErr = some (.transient msg))
    (hco : sc.obj = none) (hcg : sc.getErr = none) (hcc : sc.createErr = some (.transient msg))
    (huo : su.obj = some x) (hug : su.getErr = none)
    (huu : su.updateErr = some (.transient msg)) (hul : hasInjectLabel x = false)
    (hd : sd.deleteErr = some (.transient msg))
    (hso : ss.obj = none) (hsg : ss.getErr = none) (hsc : ss.createErr = some (.transient msg))
    (hio : si.obj = none) (hig : si.getErr = none) (hic : si.createErr = some (.transient msg)) :
    ((ensureTrustedCAConfigMap sg).err = some (.store (.transient msg)) ∧
     (ensureTrustedCAConfigMap sg).ops = [.get]) ∧
    ((ensureTrustedCAConfigMap sc).err =
       some (.wrapped "failed to create configmap" (.store (.transient msg))) ∧
     (ensureTrustedCAConfigMap sc).ops.countP (fun op => op.isCreateOp) = 1) ∧
    ((ensureTrustedCAConfigMap su).err =
       some (.wrapped "failed to update configmap" (.store (.transient msg))) ∧
     (ensureTrustedCAConfigMap su).ops.countP (fun op => op.isUpdateOp) = 1) ∧
    ((ensureTrustedCAConfigMapSwitch sd false true desired cur).err =
       some (.wrapped "failed to delete configmap" (.store (.transient msg))) ∧
     (ensureTrustedCAConfigMapSwitch sd false true desired cur).ops = [.delete]) ∧
    ((ensureServiceMeshOperatorSubscription ss).err =
       some (.wrapped "failed to create subscription" (.store (.transient msg))) ∧
     (ensureServiceMeshOperatorSubscription ss).ops.countP (fun op => op.isCreateOp) = 1) ∧
    ((ensureDefaultIngressController infraConfig ingressConfig opNs si).err =
       some (.store (.transient msg)) ∧
     (ensureDefaultIngressController infraConfig ingressConfig opNs si).ops.countP
        (fun op => op.isCreateOp) = 1) := by
  obtain ⟨objg, gg, cg, ug, dg⟩ := sg
  obtain ⟨objc, gc, cc, uc, dc⟩ := sc
  obtain ⟨obju, gu, cu, uu, du⟩ := su
  obtain ⟨objd, gd, cd, ud, dd⟩ := sd
  obtain ⟨objs, gs, cs, us⟩ := ss
  obtain ⟨obji, gi, ci⟩ := si
  dsimp only at hg hco hcg hcc huo hug huu hd hso hsg hsc hio hig hic
  subst hg; subst hco; subst hcg; subst hcc
  subst huo; subst hug; subst huu; subst hd
  subst hso; subst hsg; subst hsc
  subst hio; subst hig; subst hic
  refine ⟨⟨?_, ?_⟩, ⟨?_, ?_⟩, ⟨?_, ?_⟩, ⟨?_, ?_⟩, ⟨?_, ?_⟩, ⟨?_, ?_⟩⟩ <;>
    simp [ensureTrustedCAConfigMap, desiredTrustedCAConfigMap, currentTrustedCAConfigMap,
      ensureTrustedCAConfigMapSwitch, updateTrustedCAConfigMap,
      ensureServiceMeshOperatorSubscription, desiredSubscription, currentSubscription,
      createSubscription, updateSubscription, ensureDefaultIngressController, icGet,
      StoreError.isNotFound, hul,
      CMOp.isCreateOp, CMOp.isUpdateOp, SubOp.isCreateOp, ICOp.isCreateOp, List.countP_cons]

/-- C7 witness: concrete stores whose endpoints fail with a transient
"boom" error; every path reports the error exactly once, unwrapped for
the Get and default-ingresscontroller paths and wrapped elsewhere. -/
theorem C7_witness :
    ((⟨none, some (.transient "boom"), none, none, none⟩ : CMStore).getErr =
      some (StoreError.transient "boom")) ∧
    ((⟨none, none, some (.transient "boom"), none, none⟩ : CMStore).createErr =
      some (StoreError.transient "boom")) ∧
    ((⟨some { name := "cm", ns := "n", annot := [], labels := none, data := [],
              resourceVersion := 0 }, none, none, some (.transient "boom"), none⟩ :
        CMStore).updateErr = some (StoreError.transient "boom")) ∧
    (hasInjectLabel
      { name := "cm", ns := "n", annot := [], labels := none, data := [],
        resourceVersion := 0 } = false) ∧
    ((⟨some trustedCACM, none, none, none, some (.transient "boom")⟩ : CMStore).deleteErr =
      some (StoreError.transient "boom")) ∧
    ((⟨none, none, some (.transient "boom"), none⟩ : SubStore).createErr =
      some (StoreError.transient "boom")) ∧
    ((⟨none, none, some (.transient "boom")⟩ : ICStore).createErr =
      some (StoreError.transient "boom")) ∧
    (((ensureTrustedCAConfigMap ⟨none, some (.transient "boom"), none, none, none⟩).err =
        some (.store (.transient "boom")) ∧
      (ensureTrustedCAConfigMap ⟨none, some (.transient "boom"), none, none, none⟩).ops =
        [.get]) ∧
     ((ensureTrustedCAConfigMap ⟨none, none, some (.transient "boom"), none, none⟩).err =
        some (.wrapped "failed to create configmap" (.store (.transient "boom"))) ∧
      (ensureTrustedCAConfigMap ⟨none, none, some (.transient "boom"), none, none⟩).ops.countP
        (fun op => op.isCreateOp) = 1) ∧
     ((ensureTrustedCAConfigMap
        ⟨some { name := "cm", ns := "n", annot := [], labels := none, data := [],
                resourceVersion := 0 }, none, none, some (.transient "boom"), none⟩).err =
        some (.wrapped "failed to update configmap" (.store (.transient "boom"))) ∧
      (ensureTrustedCAConfigMap
        ⟨some { name := "cm", ns := "n", annot := [], labels := none, data := [],
                resourceVersion := 0 }, none, none, some (.transient "boom"), none⟩).ops.countP
        (fun op => op.isUpdateOp) = 1) ∧
     ((ensureTrustedCAConfigMapSwitch
        ⟨some trustedCACM, none, none, none, some (.transient "boom")⟩
        false true trustedCACM (some trustedCACM)).err =
        some (.wrapped "failed to delete configmap" (.store (.transient "boom"))) ∧
      (ensureTrustedCAConfigMapSwitch
        ⟨some trustedCACM, none, none, none, some (.transient "boom")⟩
        false true trustedCACM (some trustedCACM)).ops = [.delete]) ∧
     ((ensureServiceMeshOperatorSubscription ⟨none, none, some (.transient "boom"), none⟩).err =
        some (.wrapped "failed to create subscription" (.store (.transient "boom"))) ∧
      (ensureServiceMeshOperatorSubscription
        ⟨none, none, some (.transient "boom"), none⟩).ops.countP
        (fun op => op.isCreateOp) = 1) ∧
     ((ensureDefaultIngressController
        { status := { controlPlaneTopology := "HighlyAvailable",
                      infrastructureTopology := "HighlyAvailable",
                      platformStatus := some { type := "AWS" } } }
        { spec := { operatorLogLevel := "Normal", lbPlatformType := "", lbAWSType := none },
          status := { defaultPlacement := DefaultPlacementWorkers } }
        "openshift-ingress-operator" ⟨none, none, some (.transient "boom")⟩).err =
        some (.store (.transient "boom")) ∧
      (ensureDefaultIngressController
        { status := { controlPlaneTopology := "HighlyAvailable",
                      infrastructureTopology := "HighlyAvailable",
                      platformStatus := some { type := "AWS" } } }
        { spec := { operatorLogLevel := "Normal", lbPlatformType := "", lbAWSType := none },
          status := { defaultPlacement := DefaultPlacementWorkers } }
        "openshift-ingress-operator" ⟨none, none, some (.transient "boom")⟩).ops.countP
        (fun op => op.isCreateOp) = 1)) :=
  ⟨rfl, rfl, rfl, by decide, rfl, rfl, rfl,
    C7_amended_thm "boom"
      ⟨none, some (.transient "boom"), none, none, none⟩
      ⟨none, none, some (.transient "boom"), none, none⟩
      ⟨some { name := "cm", ns := "n", annot := [], labels := none, data := [],
              resourceVersion := 0 }, none, none, some (.transient "boom"), none⟩
      ⟨some trustedCACM, none, none, none, some (.transient "boom")⟩
      ⟨none, none, some (.transient "boom"), none⟩
      ⟨none, none, some (.transient "boom")⟩
      trustedCACM
      { name := "cm", ns := "n", annot := [], labels := none, data := [],
        resourceVersion := 0 }
      (some trustedCACM)
      { status := { controlPlaneTopology := "HighlyAvailable",
                    infrastructureTopology := "HighlyAvailable",
                    platformStatus := some { type := "AWS" } } }
      { spec := { operatorLogLevel := "Normal", lbPlatformType := "", lbAWSType := none },
        status := { defaultPlacement := DefaultPlacementWorkers } }
      "openshift-ingress-operator"
      rfl rfl rfl rfl rfl rfl rfl (by decide) rfl rfl rfl rfl rfl rfl rfl⟩

end CIOperator
